import Mathlib

/-!
Verification of the service-resilience core of the api-gateway repository:
a shallow embedding of src/services/CircuitBreaker.js, src/services/LoadBalancer.js
and src/services/ServiceRegistry.js, with theorems checking the documented
behaviour of the circuit breaker state machine, the round-robin load balancer
and the registry instance-resolution path.

Modelling conventions:
- Wall-clock time (JS Date.now()) is passed explicitly as a Nat argument to
  every operation that reads the clock.
- JS errors are modelled by the fields the breaker inspects: an optional
  string code and an optional HTTP response status.
- Logging, event-emitter notification, the metrics-reset interval timer and
  the observability getters have no effect on the modelled state and are
  omitted; the rolling metrics counters that the operations increment are
  kept.  The floating point averageResponseTime is observability-only and
  is not modelled.
-/

namespace APIGateway

/-- The three circuit breaker states (STATES in CircuitBreaker.js). -/
inductive BreakerState
  | CLOSED
  | OPEN
  | HALF_OPEN
deriving DecidableEq, Repr

/-- The parts of a JS error value that CircuitBreaker.shouldRecordFailure
inspects: error.code and error.response.status. -/
structure ErrInfo where
  code : Option String
  responseStatus : Option Nat
deriving DecidableEq, Repr

/-- Circuit breaker configuration (this.options in the constructor).  The
constructor defaults every numeric field with JS disjunction, so 0 is
replaced by the default; in particular failureThreshold and successThreshold
are always positive on any constructed breaker.  errorFilter is the optional
user-supplied failure classifier. -/
structure BreakerOptions where
  failureThreshold : Nat
  recoveryTimeout : Nat
  monitoringPeriod : Nat
  successThreshold : Nat
  timeout : Nat
  errorFilter : Option (ErrInfo → Bool)

/-- The constructor defaults: failureThreshold 5, recoveryTimeout 60000,
monitoringPeriod 10000, successThreshold 2, timeout 30000, no errorFilter. -/
def defaultOptions : BreakerOptions :=
  { failureThreshold := 5
    recoveryTimeout := 60000
    monitoringPeriod := 10000
    successThreshold := 2
    timeout := 30000
    errorFilter := none }

/-- The rolling metrics counters (this.metrics).  lastResetTime and the
floating point averageResponseTime are observability-only and omitted. -/
structure Metrics where
  requests : Nat
  failures : Nat
  successes : Nat
  timeouts : Nat
  rejections : Nat
deriving DecidableEq, Repr

/-- The mutable state of one CircuitBreaker instance. -/
structure CircuitBreaker where
  options : BreakerOptions
  state : BreakerState
  failureCount : Nat
  successCount : Nat
  totalRequests : Nat
  lastFailureTime : Option Nat
  lastSuccessTime : Option Nat
  nextAttemptTime : Option Nat
  metrics : Metrics

namespace CircuitBreaker

/-- Constructor state: CLOSED, all counters zero, all timestamps null. -/
def init (opts : BreakerOptions) : CircuitBreaker :=
  { options := opts
    state := .CLOSED
    failureCount := 0
    successCount := 0
    totalRequests := 0
    lastFailureTime := none
    lastSuccessTime := none
    nextAttemptTime := none
    metrics := ⟨0, 0, 0, 0, 0⟩ }

/-- JS method open(): state becomes OPEN and
nextAttemptTime := Date.now() + recoveryTimeout.  (Named openBreaker
because open is a Lean keyword.) -/
def openBreaker (b : CircuitBreaker) (now : Nat) : CircuitBreaker :=
  { b with state := .OPEN
           nextAttemptTime := some (now + b.options.recoveryTimeout) }

/-- JS method close(): full reset, state CLOSED, counters zeroed,
lastFailureTime and nextAttemptTime cleared. -/
def close (b : CircuitBreaker) : CircuitBreaker :=
  { b with state := .CLOSED
           failureCount := 0
           successCount := 0
           lastFailureTime := none
           nextAttemptTime := none }

/-- JS method halfOpen(): state becomes HALF_OPEN, successCount is zeroed.
Note that nextAttemptTime is NOT cleared here. -/
def halfOpen (b : CircuitBreaker) : CircuitBreaker :=
  { b with state := .HALF_OPEN
           successCount := 0 }

/-- JS method onSuccess(responseTime): bump successCount, metrics.successes
and lastSuccessTime; in HALF_OPEN close once successCount reaches
successThreshold; in CLOSED reset failureCount. -/
def onSuccess (b : CircuitBreaker) (now : Nat) : CircuitBreaker :=
  let b1 :=
    { b with successCount := b.successCount + 1
             metrics := { b.metrics with successes := b.metrics.successes + 1 }
             lastSuccessTime := some now }
  if b1.state = .HALF_OPEN then
    if b1.options.successThreshold ≤ b1.successCount then b1.close else b1
  else if b1.state = .CLOSED then { b1 with failureCount := 0 }
  else b1

/-- JS method onFailure(error, responseTime): bump failureCount,
metrics.failures and lastFailureTime; in HALF_OPEN any failure reopens;
in CLOSED reopen once failureCount reaches failureThreshold. -/
def onFailure (b : CircuitBreaker) (now : Nat) : CircuitBreaker :=
  let b1 :=
    { b with failureCount := b.failureCount + 1
             metrics := { b.metrics with failures := b.metrics.failures + 1 }
             lastFailureTime := some now }
  if b1.state = .HALF_OPEN then b1.openBreaker now
  else if b1.state = .CLOSED ∧ b1.options.failureThreshold ≤ b1.failureCount then
    b1.openBreaker now
  else b1

/-- The default list of ignored error codes in shouldRecordFailure. -/
def ignoredCodes : List String :=
  ["ENOTFOUND", "ECONNREFUSED", "ETIMEDOUT", "CIRCUIT_BREAKER_TIMEOUT"]

/-- JS method shouldRecordFailure(error): an explicit errorFilter decides
alone; otherwise HTTP 4xx responses never count, and otherwise any error
counts unless its code is in the ignored list (a missing code counts,
since includes(undefined) is false). -/
def shouldRecordFailure (opts : BreakerOptions) (e : ErrInfo) : Bool :=
  match opts.errorFilter with
  | some f => f e
  | none =>
    let is4xx :=
      match e.responseStatus with
      | some st => decide (400 ≤ st) && decide (st < 500)
      | none => false
    if is4xx then false
    else
      match e.code with
      | some c => !(ignoredCodes.contains c)
      | none => true

/-- JS method recordFailure(error): external failure recording gated by
shouldRecordFailure. -/
def recordFailure (b : CircuitBreaker) (e : ErrInfo) (now : Nat) : CircuitBreaker :=
  if shouldRecordFailure b.options e then b.onFailure now else b

/-- JS method recordSuccess(): external success recording, onSuccess with
response time 0. -/
def recordSuccess (b : CircuitBreaker) (now : Nat) : CircuitBreaker :=
  b.onSuccess now

/-- JS method shouldAttemptReset(): state is OPEN, lastFailureTime is truthy
(non-null and nonzero), and at least recoveryTimeout ms elapsed since the
last failure.  The JS subtraction is over signed numbers, hence the Int
comparison. -/
def shouldAttemptReset (b : CircuitBreaker) (now : Nat) : Bool :=
  decide (b.state = .OPEN) &&
    (match b.lastFailureTime with
     | none => false
     | some t =>
       decide (t ≠ 0) &&
         decide ((b.options.recoveryTimeout : Int) ≤ (now : Int) - (t : Int)))

/-- JS method isRequestAllowed(): CLOSED and HALF_OPEN admit; OPEN admits
only when shouldAttemptReset fires, in which case the breaker transitions
to HALF_OPEN as a side effect.  Returned as (admitted, updated breaker). -/
def isRequestAllowed (b : CircuitBreaker) (now : Nat) : Bool × CircuitBreaker :=
  match b.state with
  | .CLOSED => (true, b)
  | .HALF_OPEN => (true, b)
  | .OPEN => if b.shouldAttemptReset now then (true, b.halfOpen) else (false, b)

/-- JS method forceState(newState): sets the state; entering CLOSED zeroes
the counters and clears nextAttemptTime, entering OPEN sets
nextAttemptTime := now + recoveryTimeout, entering HALF_OPEN changes
nothing else.  (The unrecognized-state guard cannot fire here because
BreakerState is an enumeration.) -/
def forceState (b : CircuitBreaker) (newState : BreakerState) (now : Nat) : CircuitBreaker :=
  let b1 := { b with state := newState }
  match newState with
  | .CLOSED => { b1 with failureCount := 0, successCount := 0, nextAttemptTime := none }
  | .OPEN => { b1 with nextAttemptTime := some (now + b1.options.recoveryTimeout) }
  | .HALF_OPEN => b1

/-- Outcome of the wrapped async operation inside call/executeWithTimeout:
it settles successfully, settles with an error, or the deadline timer fires
first (the operation exceeded options.timeout). -/
inductive FnOutcome
  | ok
  | err (e : ErrInfo)
  | timeout
deriving DecidableEq, Repr

/-- The error thrown by executeWithTimeout when the deadline fires. -/
def timeoutError : ErrInfo :=
  { code := some "CIRCUIT_BREAKER_TIMEOUT", responseStatus := none }

/-- Result of CircuitBreaker.call: the value is returned, or the rejection
error (code CIRCUIT_BREAKER_OPEN carrying state and nextAttemptTime) is
thrown, or the operation error is rethrown. -/
inductive CallResult
  | ok
  | rejected (state : BreakerState) (nextAttemptTime : Option Nat)
  | failed (e : ErrInfo)
deriving DecidableEq, Repr

/-- JS method call(fn) (and execute, which delegates to call): bump request
counters, check admission, run the operation under the deadline, record the
outcome.  startTime is Date.now() at entry, endTime is Date.now() when the
outcome settles.  A deadline breach rejects with timeoutError and bumps
metrics.timeouts; the thrown error is recorded only if shouldRecordFailure
accepts it. -/
def call (b : CircuitBreaker) (startTime endTime : Nat) (outcome : FnOutcome) :
    CallResult × CircuitBreaker :=
  let b1 :=
    { b with totalRequests := b.totalRequests + 1
             metrics := { b.metrics with requests := b.metrics.requests + 1 } }
  let p := b1.isRequestAllowed startTime
  let allowed := p.1
  let b2 := p.2
  if !allowed then
    (CallResult.rejected b2.state b2.nextAttemptTime,
     { b2 with metrics := { b2.metrics with rejections := b2.metrics.rejections + 1 } })
  else
    match outcome with
    | .ok => (CallResult.ok, b2.onSuccess endTime)
    | .err e =>
      if shouldRecordFailure b2.options e then (CallResult.failed e, b2.onFailure endTime)
      else (CallResult.failed e, b2)
    | .timeout =>
      let b3 := { b2 with metrics := { b2.metrics with timeouts := b2.metrics.timeouts + 1 } }
      if shouldRecordFailure b3.options timeoutError then
        (CallResult.failed timeoutError, b3.onFailure endTime)
      else (CallResult.failed timeoutError, b3)

/-- Breaker states reachable from the constructor by any sequence of the
public mutating operations call, recordSuccess, recordFailure and
forceState (isRequestAllowed runs inside call). -/
inductive Reachable (opts : BreakerOptions) : CircuitBreaker → Prop
  | init : Reachable opts (CircuitBreaker.init opts)
  | call (b : CircuitBreaker) (startTime endTime : Nat) (outcome : FnOutcome)
      (h : Reachable opts b) : Reachable opts (b.call startTime endTime outcome).2
  | recordSuccess (b : CircuitBreaker) (now : Nat) (h : Reachable opts b) :
      Reachable opts (b.recordSuccess now)
  | recordFailure (b : CircuitBreaker) (e : ErrInfo) (now : Nat) (h : Reachable opts b) :
      Reachable opts (b.recordFailure e now)
  | forceState (b : CircuitBreaker) (s : BreakerState) (now : Nat) (h : Reachable opts b) :
      Reachable opts (b.forceState s now)

/-- Relation between nextAttemptTime and the state that actually holds on
reachable breakers: OPEN always carries a nextAttemptTime, CLOSED never
does.  (HALF_OPEN can go either way, because halfOpen does not clear the
field.) -/
def NAI (b : CircuitBreaker) : Prop :=
  (b.state = .OPEN → b.nextAttemptTime ≠ none) ∧
  (b.state = .CLOSED → b.nextAttemptTime = none)

/-- Shape of a breaker that entered OPEN through onFailure: the state is
OPEN and nextAttemptTime is at most lastFailureTime + recoveryTimeout, so
any admission check before nextAttemptTime also precedes the
lastFailureTime-based reset test. -/
def OpenInv (b : CircuitBreaker) : Prop :=
  b.state = .OPEN ∧
    ∃ t m, b.lastFailureTime = some t ∧ b.nextAttemptTime = some m ∧
      m ≤ t + b.options.recoveryTimeout

/-- Fold of consecutive counted failures (onFailure) at the given times. -/
def applyFailures (b : CircuitBreaker) (ts : List Nat) : CircuitBreaker :=
  ts.foldl (fun acc t => acc.onFailure t) b

/-- Fold of consecutive recorded successes at the given times. -/
def applySuccesses (b : CircuitBreaker) (ts : List Nat) : CircuitBreaker :=
  ts.foldl (fun acc t => acc.recordSuccess t) b

end CircuitBreaker

/-- An error with no code and no HTTP response: counted by the default
failure classifier. -/
def genericError : ErrInfo := { code := none, responseStatus := none }

/-- Constructor options with failureThreshold 1 (a value the constructor
defaulting keeps). -/
def lowThresholdOptions : BreakerOptions :=
  { defaultOptions with failureThreshold := 1 }

/-- Fresh default breaker forced straight to OPEN at time 1000: its
lastFailureTime is still null, so the lastFailureTime-based reset test can
never fire even though nextAttemptTime = 61000 is set. -/
def forcedOpenBreaker : CircuitBreaker :=
  (CircuitBreaker.init defaultOptions).forceState .OPEN 1000

/-- Breaker with failureThreshold 1 driven OPEN by a recorded failure at
time 1000 and then probed by a call at time 61000, which flips it to
HALF_OPEN through the admission check while leaving nextAttemptTime set. -/
def halfOpenCarryover : CircuitBreaker :=
  (((CircuitBreaker.init lowThresholdOptions).recordFailure genericError 1000).call
    61000 61000 .ok).2

/-- Default breaker that records one success while CLOSED (successCount
becomes 1, never reset) and is then forced to HALF_OPEN, carrying that
successCount into the trial state. -/
def carriedSuccessBreaker : CircuitBreaker :=
  ((CircuitBreaker.init defaultOptions).recordSuccess 10).forceState .HALF_OPEN 20

/-- Breaker with failureThreshold 1 driven OPEN by a single recorded
failure at time 1000: lastFailureTime = 1000 and
nextAttemptTime = 1000 + recoveryTimeout. -/
def openedByFailure : CircuitBreaker :=
  (CircuitBreaker.init lowThresholdOptions).recordFailure genericError 1000

/-- Fresh default breaker forced to HALF_OPEN (successCount still 0, as
after the halfOpen transition). -/
def forcedHalfOpenBreaker : CircuitBreaker :=
  (CircuitBreaker.init defaultOptions).forceState .HALF_OPEN 0

/-- One registered backend service, as built by
ServiceRegistry.registerService: the name, the configured base URL, the
instance list (initially the singleton [url]), the health status string
(unknown / healthy / unhealthy) and the consecutive health-check failure
count.  The observability timestamps (lastHealthCheck, registeredAt, ...)
are never read by the resolution path and are omitted. -/
structure Service where
  name : String
  url : String
  instances : List String
  status : String
  failureCount : Nat
deriving DecidableEq, Repr

/-- JS Map.set on a string-keyed association list: replace in place if the
key is present, append otherwise. -/
def setKey {β : Type} (l : List (String × β)) (k : String) (v : β) :
    List (String × β) :=
  match l with
  | [] => [(k, v)]
  | (k1, v1) :: rest => if k1 = k then (k, v) :: rest else (k1, v1) :: setKey rest k v

/-- The LoadBalancer mutable state: the per-service round-robin cursor map
(currentIndices).  The per-instance connection counters feed only the
leastConnections strategy and are omitted (the registry always uses the
default roundRobin strategy). -/
structure LoadBalancer where
  currentIndices : List (String × Nat)
deriving DecidableEq, Repr

namespace LoadBalancer

/-- Constructor state: empty cursor map. -/
def init : LoadBalancer := ⟨[]⟩

/-- The two errors getNextInstance throws: empty instance list, or no
instance left after the validity filter. -/
inductive LBError
  | noInstances (serviceName : String)
  | noHealthyInstances (serviceName : String)
deriving DecidableEq, Repr

/-- The per-instance validity filter inside getNextInstance: the instance
must be a string (always true in this model), must be nonempty after trim
(instance.trim() is falsy exactly when every character is whitespace,
modelled character-wise), and must parse as a URL.  The WHATWG URL parser
is an external library, so URL parseability is a parameter (validURL) of
the embedding. -/
def isValidInstance (validURL : String → Bool) (inst : String) : Bool :=
  if inst.data.all Char.isWhitespace then false else validURL inst

/-- JS method roundRobin(service, instances): read the cursor for the
service name (a missing entry is first initialized to 0), select
instances[cursor] (undefined, i.e. none, when the cursor is out of range),
and advance the cursor modulo instances.length. -/
def roundRobin (lb : LoadBalancer) (svc : Service) (instances : List String) :
    Option String × LoadBalancer :=
  let currentIndex := (lb.currentIndices.lookup svc.name).getD 0
  let selected := instances.get? currentIndex
  let nextIndex := (currentIndex + 1) % instances.length
  (selected, ⟨setKey lb.currentIndices svc.name nextIndex⟩)

/-- JS method getNextInstance(service, algorithm): reject an empty instance
list, filter to valid instances, reject when none survive, then delegate to
the strategy.  The registry always calls this with the default roundRobin
strategy, which is the one modelled (weighted and random draw on
Math.random and are external nondeterminism). -/
def getNextInstance (validURL : String → Bool) (lb : LoadBalancer) (svc : Service) :
    Except LBError (Option String × LoadBalancer) :=
  if svc.instances.isEmpty then .error (.noInstances svc.name)
  else
    let healthyInstances := svc.instances.filter (isValidInstance validURL)
    if healthyInstances.isEmpty then .error (.noHealthyInstances svc.name)
    else .ok (roundRobin lb svc healthyInstances)

/-- Load balancer state after n consecutive getNextInstance calls for the
same service, starting from lb. -/
def rrState (validURL : String → Bool) (svc : Service) (lb : LoadBalancer) :
    Nat → Except LBError LoadBalancer
  | 0 => .ok lb
  | n + 1 => do
    let lb1 ← rrState validURL svc lb n
    let p ← getNextInstance validURL lb1 svc
    pure p.2

/-- The (n+1)-th consecutive selection (0-indexed n) for the same service,
starting from lb. -/
def rrSelection (validURL : String → Bool) (svc : Service) (lb : LoadBalancer)
    (n : Nat) : Except LBError (Option String) := do
  let lb1 ← rrState validURL svc lb n
  let p ← getNextInstance validURL lb1 svc
  pure p.1

end LoadBalancer

/-- URL-validity oracle that accepts every string (all demo instances below
are well-formed absolute URLs). -/
def acceptAll : String → Bool := fun _ => true

/-- URL-validity oracle that rejects every string, producing the
no-valid-instance load balancer failure. -/
def rejectAll : String → Bool := fun _ => false

/-- Demo service with three instance URLs for the round-robin cycle
witness. -/
def rrDemoService : Service :=
  { name := "catalog", url := "http://a", instances := ["http://a", "http://b", "http://c"],
    status := "unknown", failureCount := 0 }

/-- The ServiceRegistry mutable state: the service map, the per-service
circuit breakers, and the shared load balancer. -/
structure ServiceRegistry where
  services : List (String × Service)
  breakers : List (String × CircuitBreaker)
  loadBalancer : LoadBalancer

namespace ServiceRegistry

/-- Constructor state: empty maps, fresh load balancer. -/
def init : ServiceRegistry := ⟨[], [], LoadBalancer.init⟩

/-- JS method registerService(name, config): stores a Service with
instances = [config.url] and status unknown, and a fresh circuit breaker
with failureThreshold 5, recoveryTimeout 30000, monitoringPeriod 10000,
timeout = config.timeout || 30000 and the remaining constructor defaults
(successThreshold 2, no errorFilter). -/
def registerService (reg : ServiceRegistry) (name : String) (cfgUrl : String)
    (cfgTimeout : Option Nat) : ServiceRegistry :=
  let service : Service :=
    { name := name, url := cfgUrl, instances := [cfgUrl], status := "unknown",
      failureCount := 0 }
  let breakerOpts : BreakerOptions :=
    { failureThreshold := 5
      recoveryTimeout := 30000
      monitoringPeriod := 10000
      successThreshold := 2
      timeout := match cfgTimeout with
                 | some t => if t = 0 then 30000 else t
                 | none => 30000
      errorFilter := none }
  { reg with
      services := setKey reg.services name service
      breakers := setKey reg.breakers name (CircuitBreaker.init breakerOpts) }

/-- The failures getServiceInstance can throw: unknown service, circuit
breaker denial, and the final no-instances-at-all case of the fallback
chain. -/
inductive RegistryError
  | serviceNotFound (name : String)
  | circuitBreakerOpen (name : String)
  | noInstancesAvailable (name : String)
deriving DecidableEq, Repr

/-- The load-balancer delegation and fallback chain at the end of
getServiceInstance: on load balancer success return the selected instance
(possibly undefined when the cursor is out of range); on any load balancer
error fall back to the first configured instance URL, then to the base
service URL when that is truthy, and only then throw. -/
def resolveViaBalancer (validURL : String → Bool) (reg : ServiceRegistry)
    (service : Service) (serviceName : String) :
    Except RegistryError (Option String × ServiceRegistry) :=
  match LoadBalancer.getNextInstance validURL reg.loadBalancer service with
  | .ok (inst, lb1) => .ok (inst, { reg with loadBalancer := lb1 })
  | .error _ =>
    match service.instances with
    | fallbackUrl :: _ => .ok (some fallbackUrl, reg)
    | [] =>
      if service.url ≠ "" then .ok (some service.url, reg)
      else .error (.noInstancesAvailable serviceName)

/-- JS method getServiceInstance(serviceName): look the service up (throw
serviceNotFound when missing), only log on unhealthy status, consult the
circuit breaker admission check when a breaker exists (throwing the
circuit-open error on denial, and keeping the breaker state the admission
check may have updated), then delegate to the load balancer with the
fallback chain.  now is Date.now() as seen by the admission check. -/
def getServiceInstance (validURL : String → Bool) (reg : ServiceRegistry)
    (serviceName : String) (now : Nat) :
    Except RegistryError (Option String × ServiceRegistry) :=
  match reg.services.lookup serviceName with
  | none => .error (.serviceNotFound serviceName)
  | some service =>
    match reg.breakers.lookup serviceName with
    | some cb =>
      let p := cb.isRequestAllowed now
      let reg1 := { reg with breakers := setKey reg.breakers serviceName p.2 }
      if !p.1 then .error (.circuitBreakerOpen serviceName)
      else resolveViaBalancer validURL reg1 service serviceName
    | none => resolveViaBalancer validURL reg service serviceName

/-- The outcome of a resolution as seen by the caller: the returned URL or
the thrown failure kind, without the updated registry state. -/
def outcomeOf (r : Except RegistryError (Option String × ServiceRegistry)) :
    Except RegistryError (Option String) :=
  r.map Prod.fst

end ServiceRegistry

/-- Demo service for the registry theorems, in the registered shape
(instances = [url]). -/
def userService : Service :=
  { name := "user", url := "http://localhost:3001", instances := ["http://localhost:3001"],
    status := "healthy", failureCount := 0 }

/-- Registry holding userService with a fresh default breaker. -/
def regHealthy : ServiceRegistry :=
  { services := [("user", userService)]
    breakers := [("user", CircuitBreaker.init defaultOptions)]
    loadBalancer := LoadBalancer.init }

/-- Same registry except the user service is marked unhealthy. -/
def regUnhealthy : ServiceRegistry :=
  { services := [("user", { userService with status := "unhealthy" })]
    breakers := [("user", CircuitBreaker.init defaultOptions)]
    loadBalancer := LoadBalancer.init }

open CircuitBreaker

/-- Helper: with no custom errorFilter, the deadline-breach error code
CIRCUIT_BREAKER_TIMEOUT is in the default ignored-codes list, so
shouldRecordFailure rejects it. -/
theorem shouldRecordFailure_timeoutError (opts : BreakerOptions)
    (h : opts.errorFilter = none) :
    shouldRecordFailure opts timeoutError = false := by
  unfold shouldRecordFailure
  rw [h]
  rfl

/-- C1 counterexample: on a fresh default-configured breaker (CLOSED,
failureCount 0, no custom errorFilter — the shape the registry creates), a
call whose operation exceeds the deadline fails with the
CIRCUIT_BREAKER_TIMEOUT error and bumps metrics.timeouts, but failureCount
stays 0 and the state stays CLOSED: the timeout is NOT counted toward the
failure threshold, contrary to the claim. -/
theorem timeout_call_not_counted_cex :
    ((CircuitBreaker.init defaultOptions).call 0 30000 .timeout).1 =
        CallResult.failed timeoutError ∧
    ((CircuitBreaker.init defaultOptions).call 0 30000 .timeout).2.failureCount = 0 ∧
    ((CircuitBreaker.init defaultOptions).call 0 30000 .timeout).2.state = .CLOSED ∧
    ((CircuitBreaker.init defaultOptions).call 0 30000 .timeout).2.metrics.timeouts = 1 := by
  decide

/-- C1 (amended): a call whose execution exceeds the configured timeout
fails with the circuit-timeout error kind (code CIRCUIT_BREAKER_TIMEOUT)
and increments metrics.timeouts, but under the default error filter that
timeout is NOT counted as a failure: from any breaker whose admission check
passes without a state transition (CLOSED, or HALF_OPEN — so a timed-out
trial call does not reopen the breaker), failureCount and the breaker state
are unchanged (CIRCUIT_BREAKER_TIMEOUT is in the ignored-codes list of
shouldRecordFailure). -/
theorem timeout_call_fails_unrecorded (b : CircuitBreaker) (s e : Nat)
    (hf : b.options.errorFilter = none)
    (hst : b.state = .CLOSED ∨ b.state = .HALF_OPEN) :
    (b.call s e .timeout).1 = CallResult.failed timeoutError ∧
    (b.call s e .timeout).2.failureCount = b.failureCount ∧
    (b.call s e .timeout).2.state = b.state ∧
    (b.call s e .timeout).2.metrics.timeouts = b.metrics.timeouts + 1 := by
  rcases hst with hst | hst <;>
  · unfold call isRequestAllowed
    simp only [hst]
    rw [shouldRecordFailure_timeoutError _ hf]
    simp [hst]

/-- Witness for the amended C1 theorem at a HALF_OPEN breaker: the
timed-out trial call fails with the timeout error but does not reopen the
breaker and does not touch failureCount. -/
theorem timeout_call_fails_unrecorded_witness :
    (forcedHalfOpenBreaker.call 5 40000 .timeout).1 = CallResult.failed timeoutError ∧
    (forcedHalfOpenBreaker.call 5 40000 .timeout).2.failureCount =
        forcedHalfOpenBreaker.failureCount ∧
    (forcedHalfOpenBreaker.call 5 40000 .timeout).2.state = forcedHalfOpenBreaker.state ∧
    (forcedHalfOpenBreaker.call 5 40000 .timeout).2.metrics.timeouts =
        forcedHalfOpenBreaker.metrics.timeouts + 1 :=
  timeout_call_fails_unrecorded forcedHalfOpenBreaker 5 40000 rfl (Or.inr rfl)

/-- C2 counterexample: a fresh breaker forced to OPEN (forceState) has
nextAttemptTime = 61000 but a null lastFailureTime, and the admission check
at now = 61000 ≥ nextAttemptTime is still denied and does NOT transition to
HALF_OPEN: shouldAttemptReset tests lastFailureTime, not nextAttemptTime,
so the claimed behaviour fails for breakers that entered OPEN via
forceState. -/
theorem open_admission_forceState_cex :
    forcedOpenBreaker.state = .OPEN ∧
    forcedOpenBreaker.nextAttemptTime = some 61000 ∧
    (forcedOpenBreaker.isRequestAllowed 61000).1 = false ∧
    (forcedOpenBreaker.isRequestAllowed 61000).2.state = .OPEN := by
  decide

/-- C2 (amended): admission for an OPEN breaker is governed by
lastFailureTime + recoveryTimeout rather than by nextAttemptTime.  For a
breaker that entered OPEN through a recorded failure at a positive time t
(so lastFailureTime = t and nextAttemptTime = t + recoveryTimeout), every
check with now < nextAttemptTime is denied and leaves the breaker
untouched, and any check with now ≥ nextAttemptTime transitions to
HALF_OPEN and is admitted; for a breaker forced OPEN with a stale or null
lastFailureTime the nextAttemptTime-based phrasing fails (see the
counterexample). -/
theorem open_admission_by_lastFailure (b : CircuitBreaker) (t now : Nat)
    (hst : b.state = .OPEN) (hlf : b.lastFailureTime = some t) (ht : 0 < t)
    (hna : b.nextAttemptTime = some (t + b.options.recoveryTimeout)) :
    (now < t + b.options.recoveryTimeout → b.isRequestAllowed now = (false, b)) ∧
    (t + b.options.recoveryTimeout ≤ now →
      b.isRequestAllowed now = (true, b.halfOpen) ∧ b.halfOpen.state = .HALF_OPEN) := by
  constructor
  · intro hlt
    have hreset : b.shouldAttemptReset now = false := by
      unfold shouldAttemptReset
      rw [hlf]
      have hc : ¬ ((b.options.recoveryTimeout : Int) ≤ (now : Int) - (t : Int)) := by
        omega
      simp [hc]
    unfold isRequestAllowed
    simp only [hst, hreset]
    simp
  · intro hge
    have hreset : b.shouldAttemptReset now = true := by
      unfold shouldAttemptReset
      rw [hlf, hst]
      have hc : (b.options.recoveryTimeout : Int) ≤ (now : Int) - (t : Int) := by
        omega
      have ht0 : t ≠ 0 := by omega
      simp [hc, ht0]
    unfold isRequestAllowed
    simp only [hst, hreset]
    simp [halfOpen]

/-- Witness for the amended C2 theorem: a threshold-1 breaker opened by a
failure at time 1000 is admitted (and flipped to HALF_OPEN) at time 61000. -/
theorem open_admission_by_lastFailure_witness :
    openedByFailure.isRequestAllowed 61000 = (true, openedByFailure.halfOpen) ∧
    openedByFailure.halfOpen.state = .HALF_OPEN :=
  (open_admission_by_lastFailure openedByFailure 1000 61000 (by decide) (by decide)
    (by decide) (by decide)).2 (by decide)

/-- C5: in HALF_OPEN, a single recorded (counted) failure transitions the
breaker to OPEN and sets nextAttemptTime = now + recoveryTimeout, whatever
the prior success count and counters were. -/
theorem halfOpen_failure_reopens (b : CircuitBreaker) (e : ErrInfo) (now : Nat)
    (hst : b.state = .HALF_OPEN) (hrec : shouldRecordFailure b.options e = true) :
    (b.recordFailure e now).state = .OPEN ∧
    (b.recordFailure e now).nextAttemptTime = some (now + b.options.recoveryTimeout) := by
  unfold recordFailure
  rw [hrec]
  unfold onFailure
  simp [hst, openBreaker]

/-- Witness for C5: a forced-HALF_OPEN default breaker reopens on one
recorded failure at time 500 with nextAttemptTime 60500. -/
theorem halfOpen_failure_reopens_witness :
    (forcedHalfOpenBreaker.recordFailure genericError 500).state = .OPEN ∧
    (forcedHalfOpenBreaker.recordFailure genericError 500).nextAttemptTime =
      some (500 + forcedHalfOpenBreaker.options.recoveryTimeout) :=
  halfOpen_failure_reopens forcedHalfOpenBreaker genericError 500 (by decide) (by decide)

/-- C10: recordSuccess on an OPEN breaker leaves the state OPEN and
nextAttemptTime, failureCount, lastFailureTime and the options unchanged;
it only bumps successCount and metrics.successes and stamps
lastSuccessTime — it never moves the breaker toward HALF_OPEN or CLOSED. -/
theorem open_recordSuccess_frame (b : CircuitBreaker) (now : Nat)
    (hst : b.state = .OPEN) :
    (b.recordSuccess now).state = .OPEN ∧
    (b.recordSuccess now).nextAttemptTime = b.nextAttemptTime ∧
    (b.recordSuccess now).failureCount = b.failureCount ∧
    (b.recordSuccess now).lastFailureTime = b.lastFailureTime ∧
    (b.recordSuccess now).options = b.options ∧
    (b.recordSuccess now).successCount = b.successCount + 1 ∧
    (b.recordSuccess now).lastSuccessTime = some now ∧
    (b.recordSuccess now).metrics.successes = b.metrics.successes + 1 ∧
    (b.recordSuccess now).metrics.failures = b.metrics.failures ∧
    (b.recordSuccess now).metrics.rejections = b.metrics.rejections := by
  unfold recordSuccess onSuccess
  simp [hst]

/-- Witness for C10 at the forced-OPEN breaker and time 7. -/
theorem open_recordSuccess_frame_witness :
    (forcedOpenBreaker.recordSuccess 7).state = .OPEN ∧
    (forcedOpenBreaker.recordSuccess 7).nextAttemptTime = forcedOpenBreaker.nextAttemptTime ∧
    (forcedOpenBreaker.recordSuccess 7).failureCount = forcedOpenBreaker.failureCount ∧
    (forcedOpenBreaker.recordSuccess 7).lastFailureTime = forcedOpenBreaker.lastFailureTime ∧
    (forcedOpenBreaker.recordSuccess 7).options = forcedOpenBreaker.options ∧
    (forcedOpenBreaker.recordSuccess 7).successCount = forcedOpenBreaker.successCount + 1 ∧
    (forcedOpenBreaker.recordSuccess 7).lastSuccessTime = some 7 ∧
    (forcedOpenBreaker.recordSuccess 7).metrics.successes =
      forcedOpenBreaker.metrics.successes + 1 ∧
    (forcedOpenBreaker.recordSuccess 7).metrics.failures = forcedOpenBreaker.metrics.failures ∧
    (forcedOpenBreaker.recordSuccess 7).metrics.rejections =
      forcedOpenBreaker.metrics.rejections :=
  open_recordSuccess_frame forcedOpenBreaker 7 (by decide)

/-- Helper: the invariant holds at the constructor state. -/
theorem NAI_init (opts : BreakerOptions) : NAI (CircuitBreaker.init opts) := by
  simp [NAI, CircuitBreaker.init]

/-- Helper: onSuccess preserves the nextAttemptTime invariant. -/
theorem NAI_onSuccess (b : CircuitBreaker) (now : Nat) (h : NAI b) :
    NAI (b.onSuccess now) := by
  obtain ⟨ho, hc⟩ := h
  unfold onSuccess
  cases hst : b.state with
  | CLOSED => simp [NAI, hst, hc hst]
  | OPEN =>
    simp only [hst]
    refine ⟨fun _ => ?_, fun hx => ?_⟩
    · exact ho hst
    · exact absurd hx (by simp)
  | HALF_OPEN =>
    simp only [hst]
    by_cases hth : b.options.successThreshold ≤ b.successCount + 1
    · simp [NAI, hth, close]
    · simp [NAI, hth]

/-- Helper: onFailure preserves the nextAttemptTime invariant. -/
theorem NAI_onFailure (b : CircuitBreaker) (now : Nat) (h : NAI b) :
    NAI (b.onFailure now) := by
  obtain ⟨ho, hc⟩ := h
  unfold onFailure
  cases hst : b.state with
  | CLOSED =>
    simp only [hst]
    by_cases hth : b.options.failureThreshold ≤ b.failureCount + 1
    · simp [NAI, hth, openBreaker]
    · simp [NAI, hth, hc hst]
  | OPEN =>
    simp only [hst]
    refine ⟨fun _ => ?_, fun hx => ?_⟩
    · exact ho hst
    · exact absurd hx (by simp)
  | HALF_OPEN => simp [NAI, hst, openBreaker]

/-- Helper: the admission check (which may flip OPEN to HALF_OPEN)
preserves the nextAttemptTime invariant. -/
theorem NAI_isRequestAllowed (b : CircuitBreaker) (now : Nat) (h : NAI b) :
    NAI (b.isRequestAllowed now).2 := by
  unfold isRequestAllowed
  cases hst : b.state with
  | CLOSED => simp only [hst]; exact h
  | OPEN =>
    simp only [hst]
    split
    · simp [NAI, halfOpen]
    · exact h
  | HALF_OPEN => simp only [hst]; exact h

/-- Helper: recordFailure preserves the nextAttemptTime invariant. -/
theorem NAI_recordFailure (b : CircuitBreaker) (e : ErrInfo) (now : Nat) (h : NAI b) :
    NAI (b.recordFailure e now) := by
  unfold recordFailure
  split
  · exact NAI_onFailure b now h
  · exact h

/-- Helper: call preserves the nextAttemptTime invariant. -/
theorem NAI_call (b : CircuitBreaker) (s e : Nat) (o : FnOutcome) (h : NAI b) :
    NAI (b.call s e o).2 := by
  have h2 : NAI (CircuitBreaker.isRequestAllowed
      { b with totalRequests := b.totalRequests + 1,
               metrics := { b.metrics with requests := b.metrics.requests + 1 } } s).2 :=
    NAI_isRequestAllowed _ s h
  unfold call
  dsimp only
  rcases hP : CircuitBreaker.isRequestAllowed
      { b with totalRequests := b.totalRequests + 1,
               metrics := { b.metrics with requests := b.metrics.requests + 1 } } s
    with ⟨fl, b2⟩
  rw [hP] at h2
  dsimp only at h2 ⊢
  cases fl with
  | false => exact h2
  | true =>
    cases o with
    | ok => exact NAI_onSuccess b2 e h2
    | err e2 =>
      cases hrec : shouldRecordFailure b2.options e2 with
      | false => simp only [hrec]; exact h2
      | true => simp only [hrec]; exact NAI_onFailure b2 e h2
    | timeout =>
      cases hrec : shouldRecordFailure b2.options timeoutError with
      | false => simp only [hrec]; exact h2
      | true => simp only [hrec]; exact NAI_onFailure _ e h2

/-- Helper: forceState preserves the nextAttemptTime invariant. -/
theorem NAI_forceState (b : CircuitBreaker) (s : BreakerState) (now : Nat) :
    NAI (b.forceState s now) := by
  unfold forceState
  cases s with
  | CLOSED => simp [NAI]
  | OPEN => simp [NAI]
  | HALF_OPEN => simp [NAI]

/-- C3 counterexample: a reachable state (threshold-1 breaker, one counted
failure at time 1000 driving it OPEN, then a call at time 61000 whose
admission check flips it to HALF_OPEN) is in state HALF_OPEN with
nextAttemptTime still set to 61000, refuting the claimed equivalence —
halfOpen() does not clear nextAttemptTime. -/
theorem nextAttemptTime_halfOpen_cex :
    Reachable lowThresholdOptions halfOpenCarryover ∧
    halfOpenCarryover.state = .HALF_OPEN ∧
    halfOpenCarryover.nextAttemptTime = some 61000 := by
  refine ⟨?_, by decide, by decide⟩
  exact Reachable.call _ 61000 61000 .ok
    (Reachable.recordFailure _ genericError 1000 Reachable.init)

/-- C3 (amended): on every reachable breaker state, OPEN implies
nextAttemptTime is non-null and CLOSED implies it is null; but the claimed
equivalence fails in HALF_OPEN, which keeps whatever nextAttemptTime the
preceding OPEN period set (entering HALF_OPEN does not null the field). -/
theorem nextAttemptTime_reachable_invariant (opts : BreakerOptions)
    (b : CircuitBreaker) (h : Reachable opts b) :
    (b.state = .OPEN → b.nextAttemptTime ≠ none) ∧
    (b.state = .CLOSED → b.nextAttemptTime = none) := by
  induction h with
  | init => exact NAI_init opts
  | call b s e o _ ih => exact NAI_call b s e o ih
  | recordSuccess b now _ ih => exact NAI_onSuccess b now ih
  | recordFailure b e now _ ih => exact NAI_recordFailure b e now ih
  | forceState b s now _ _ => exact NAI_forceState b s now

/-- Witness for the amended C3 theorem at the constructor state. -/
theorem nextAttemptTime_reachable_invariant_witness :
    ((CircuitBreaker.init defaultOptions).state = .OPEN →
      (CircuitBreaker.init defaultOptions).nextAttemptTime ≠ none) ∧
    ((CircuitBreaker.init defaultOptions).state = .CLOSED →
      (CircuitBreaker.init defaultOptions).nextAttemptTime = none) :=
  nextAttemptTime_reachable_invariant defaultOptions _ Reachable.init

/-- Helper: onFailure on an OPEN breaker only updates the counters and
lastFailureTime; state and nextAttemptTime are untouched. -/
theorem onFailure_open_eq (b : CircuitBreaker) (now : Nat) (hst : b.state = .OPEN) :
    b.onFailure now =
      { b with failureCount := b.failureCount + 1
               metrics := { b.metrics with failures := b.metrics.failures + 1 }
               lastFailureTime := some now } := by
  unfold onFailure
  simp [hst]

/-- Helper: OpenInv is preserved by a later counted failure. -/
theorem OpenInv_onFailure (b : CircuitBreaker) (t0 t1 : Nat) (h : OpenInv b)
    (hlf : b.lastFailureTime = some t0) (hle : t0 ≤ t1) :
    OpenInv (b.onFailure t1) ∧ (b.onFailure t1).lastFailureTime = some t1 := by
  obtain ⟨hst, t, m, hlf2, hna, hm⟩ := h
  have ht : t = t0 := by
    rw [hlf2] at hlf
    exact Option.some.inj hlf
  rw [onFailure_open_eq b t1 hst]
  refine ⟨⟨hst, t1, m, rfl, hna, ?_⟩, rfl⟩
  show m ≤ t1 + b.options.recoveryTimeout
  omega

/-- Helper: folding further counted failures at nondecreasing times over an
OpenInv breaker preserves OpenInv. -/
theorem OpenInv_applyFailures (ts : List Nat) :
    ∀ (b : CircuitBreaker) (t0 : Nat), OpenInv b → b.lastFailureTime = some t0 →
      List.Chain (· ≤ ·) t0 ts → OpenInv (applyFailures b ts) := by
  induction ts with
  | nil => intro b t0 h _ _; exact h
  | cons t ts ih =>
    intro b t0 h hlf hchain
    cases hchain with
    | cons hle hch =>
      have h2 := OpenInv_onFailure b t0 t h hlf hle
      exact ih (b.onFailure t) t h2.1 h2.2 hch

/-- Helper: from a CLOSED breaker, folding enough counted failures at
nondecreasing times reaches a state satisfying OpenInv. -/
theorem applyFailures_from_closed (ts : List Nat) :
    ∀ (b : CircuitBreaker), b.state = .CLOSED → ts ≠ [] →
      b.options.failureThreshold ≤ b.failureCount + ts.length →
      ts.Chain' (· ≤ ·) → OpenInv (applyFailures b ts) := by
  induction ts with
  | nil => intro b _ hne _ _; exact absurd rfl hne
  | cons t ts ih =>
    intro b hst _ hth hch
    by_cases hopen : b.options.failureThreshold ≤ b.failureCount + 1
    · have heq : b.onFailure t =
          CircuitBreaker.openBreaker
            { b with failureCount := b.failureCount + 1
                     metrics := { b.metrics with failures := b.metrics.failures + 1 }
                     lastFailureTime := some t } t := by
        unfold onFailure
        simp [hst, hopen]
      have hInv : OpenInv (b.onFailure t) := by
        rw [heq]
        exact ⟨rfl, t, t + b.options.recoveryTimeout, rfl, rfl, le_refl _⟩
      have hlf : (b.onFailure t).lastFailureTime = some t := by
        rw [heq]; rfl
      cases ts with
      | nil => exact hInv
      | cons u ts2 =>
        exact OpenInv_applyFailures (u :: ts2) (b.onFailure t) t hInv hlf hch
    · have heq : b.onFailure t =
          { b with failureCount := b.failureCount + 1
                   metrics := { b.metrics with failures := b.metrics.failures + 1 }
                   lastFailureTime := some t } := by
        unfold onFailure
        simp [hst, hopen]
      have hts : ts ≠ [] := by
        intro hnil
        rw [hnil] at hth
        simp at hth
        omega
      have happ : applyFailures b (t :: ts) = applyFailures (b.onFailure t) ts := rfl
      rw [happ, heq]
      apply ih
      · exact hst
      · exact hts
      · simp at hth ⊢
        omega
      · cases ts with
        | nil => exact List.chain'_nil
        | cons u ts2 =>
          cases hch with
          | cons _ h2 => exact h2

/-- Helper: an OpenInv breaker denies admission (without state change) at
every instant before its nextAttemptTime. -/
theorem OpenInv_denies (b : CircuitBreaker) (h : OpenInv b) (m now : Nat)
    (hm : b.nextAttemptTime = some m) (hlt : now < m) :
    b.isRequestAllowed now = (false, b) := by
  obtain ⟨hst, t, m0, hlf, hna, hle⟩ := h
  have hm0 : m0 = m := by
    rw [hna] at hm
    exact Option.some.inj hm
  have hreset : b.shouldAttemptReset now = false := by
    unfold shouldAttemptReset
    rw [hlf]
    have hc : ¬ ((b.options.recoveryTimeout : Int) ≤ (now : Int) - (t : Int)) := by
      omega
    simp [hc]
  unfold isRequestAllowed
  simp only [hst, hreset]
  simp

/-- C4: from any CLOSED breaker, failureThreshold consecutive counted
failures (onFailure, no intervening success) at nondecreasing times leave
the breaker OPEN, and the immediately following admission check at any
instant before nextAttemptTime is denied and leaves the breaker unchanged. -/
theorem closed_threshold_failures_open (b : CircuitBreaker) (ts : List Nat)
    (hst : b.state = .CLOSED) (hpos : 0 < b.options.failureThreshold)
    (hlen : ts.length = b.options.failureThreshold) (hch : ts.Chain' (· ≤ ·)) :
    (applyFailures b ts).state = .OPEN ∧
    ∀ m now, (applyFailures b ts).nextAttemptTime = some m → now < m →
      (applyFailures b ts).isRequestAllowed now = (false, applyFailures b ts) := by
  have hne : ts ≠ [] := by
    intro hnil
    rw [hnil] at hlen
    simp at hlen
    omega
  have hth : b.options.failureThreshold ≤ b.failureCount + ts.length := by omega
  have hInv := applyFailures_from_closed ts b hst hne hth hch
  exact ⟨hInv.1, fun m now hm hlt => OpenInv_denies _ hInv m now hm hlt⟩

/-- Witness for C4: five counted failures at times 10..50 on a fresh
default breaker (threshold 5) open it, and the admission check at 60049
(before nextAttemptTime = 60050) is denied. -/
theorem closed_threshold_failures_open_witness :
    (applyFailures (CircuitBreaker.init defaultOptions) [10, 20, 30, 40, 50]).state = .OPEN ∧
    (applyFailures (CircuitBreaker.init defaultOptions) [10, 20, 30, 40, 50]).isRequestAllowed
        60049 =
      (false, applyFailures (CircuitBreaker.init defaultOptions) [10, 20, 30, 40, 50]) := by
  have h := closed_threshold_failures_open (CircuitBreaker.init defaultOptions)
    [10, 20, 30, 40, 50] rfl (by decide) (by decide)
    (by simp [List.chain'_cons, List.chain'_singleton])
  exact ⟨h.1, h.2 60050 60049 (by decide) (by decide)⟩

/-- C6 counterexample: a default breaker (successThreshold 2) that recorded
one success while CLOSED and was then forced to HALF_OPEN carries
successCount 1, so a single further recorded success — fewer than
successThreshold — already transitions it to CLOSED, refuting the claim for
this reachable HALF_OPEN state. -/
theorem halfOpen_carried_success_cex :
    carriedSuccessBreaker.state = .HALF_OPEN ∧
    carriedSuccessBreaker.successCount = 1 ∧
    carriedSuccessBreaker.options.successThreshold = 2 ∧
    (carriedSuccessBreaker.recordSuccess 30).state = .CLOSED := by
  decide

/-- Helper: a recorded success in HALF_OPEN strictly below the threshold
only bumps successCount, metrics.successes and lastSuccessTime. -/
theorem recordSuccess_half_step (b : CircuitBreaker) (now : Nat)
    (hst : b.state = .HALF_OPEN)
    (hlt : b.successCount + 1 < b.options.successThreshold) :
    b.recordSuccess now =
      { b with successCount := b.successCount + 1
               metrics := { b.metrics with successes := b.metrics.successes + 1 }
               lastSuccessTime := some now } := by
  unfold recordSuccess onSuccess
  have hc : ¬ (b.options.successThreshold ≤ b.successCount + 1) := by omega
  simp [hst, hc]

/-- Helper: strictly fewer recorded successes than the remaining distance
to the threshold leave a HALF_OPEN breaker HALF_OPEN, adding their count. -/
theorem applySuccesses_stay_half (ts : List Nat) :
    ∀ (b : CircuitBreaker), b.state = .HALF_OPEN →
      b.successCount + ts.length < b.options.successThreshold →
      (applySuccesses b ts).state = .HALF_OPEN ∧
      (applySuccesses b ts).successCount = b.successCount + ts.length := by
  induction ts with
  | nil =>
    intro b hst _
    exact ⟨hst, by simp [applySuccesses]⟩
  | cons t ts ih =>
    intro b hst hlt
    have hlt1 : b.successCount + 1 < b.options.successThreshold := by
      simp at hlt
      omega
    have heq := recordSuccess_half_step b t hst hlt1
    have happ : applySuccesses b (t :: ts) = applySuccesses (b.recordSuccess t) ts := rfl
    rw [happ, heq]
    have hrec := ih
      { b with successCount := b.successCount + 1
               metrics := { b.metrics with successes := b.metrics.successes + 1 }
               lastSuccessTime := some t }
      hst (by simp at hlt ⊢; omega)
    refine ⟨hrec.1, ?_⟩
    rw [hrec.2]
    simp
    omega

/-- Helper: recorded successes in HALF_OPEN that exactly reach the
threshold close the breaker and zero both counters. -/
theorem applySuccesses_close (ts : List Nat) :
    ∀ (b : CircuitBreaker), b.state = .HALF_OPEN → ts ≠ [] →
      b.successCount + ts.length = b.options.successThreshold →
      (applySuccesses b ts).state = .CLOSED ∧
      (applySuccesses b ts).failureCount = 0 ∧
      (applySuccesses b ts).successCount = 0 := by
  induction ts with
  | nil => intro b _ hne _; exact absurd rfl hne
  | cons t ts ih =>
    intro b hst hne hsum
    cases ts with
    | nil =>
      have hc : b.options.successThreshold ≤ b.successCount + 1 := by
        simp at hsum
        omega
      have happ : applySuccesses b [t] = b.recordSuccess t := rfl
      rw [happ]
      unfold recordSuccess onSuccess
      simp [hst, hc, close]
    | cons u ts2 =>
      have hlt1 : b.successCount + 1 < b.options.successThreshold := by
        simp at hsum
        omega
      have heq := recordSuccess_half_step b t hst hlt1
      have happ : applySuccesses b (t :: u :: ts2) =
          applySuccesses (b.recordSuccess t) (u :: ts2) := rfl
      rw [happ, heq]
      apply ih
      · exact hst
      · simp
      · simp at hsum ⊢
        omega

/-- C6 (amended): for a breaker that is in HALF_OPEN with successCount 0 —
the state the halfOpen transition itself establishes — exactly
successThreshold consecutive recorded successes transition it to CLOSED
with failureCount = successCount = 0, and fewer than successThreshold
leave it in HALF_OPEN; a breaker moved to HALF_OPEN by forceState keeps
its previous successCount and can close earlier (see the counterexample). -/
theorem halfOpen_success_threshold (b : CircuitBreaker) (ts : List Nat)
    (hst : b.state = .HALF_OPEN) (hsc : b.successCount = 0)
    (hpos : 0 < b.options.successThreshold) :
    (ts.length < b.options.successThreshold →
      (applySuccesses b ts).state = .HALF_OPEN ∧
      (applySuccesses b ts).successCount = ts.length) ∧
    (ts.length = b.options.successThreshold →
      (applySuccesses b ts).state = .CLOSED ∧
      (applySuccesses b ts).failureCount = 0 ∧
      (applySuccesses b ts).successCount = 0) := by
  constructor
  · intro hlt
    have h := applySuccesses_stay_half ts b hst (by omega)
    exact ⟨h.1, by rw [h.2, hsc]; simp⟩
  · intro heq
    apply applySuccesses_close ts b hst
    · intro hnil
      rw [hnil] at heq
      simp at heq
      omega
    · omega

/-- Witness for the amended C6 theorem: two recorded successes close a
forced-HALF_OPEN default breaker (successThreshold 2, successCount 0). -/
theorem halfOpen_success_threshold_witness :
    (applySuccesses forcedHalfOpenBreaker [100, 200]).state = .CLOSED ∧
    (applySuccesses forcedHalfOpenBreaker [100, 200]).failureCount = 0 ∧
    (applySuccesses forcedHalfOpenBreaker [100, 200]).successCount = 0 :=
  (halfOpen_success_threshold forcedHalfOpenBreaker [100, 200] (by decide) (by decide)
    (by decide)).2 (by decide)

/-- Helper: bind on a successful Except value reduces. -/
theorem exceptBind_ok {α β γ : Type} (a : α) (f : α → Except β γ) :
    (Except.ok a : Except β α) >>= f = f a := rfl

/-- Helper: the JS Map.set model stores the value under the key. -/
theorem lookup_setKey {β : Type} (l : List (String × β)) (k : String) (v : β) :
    (setKey l k v).lookup k = some v := by
  induction l with
  | nil => simp [setKey, List.lookup]
  | cons p rest ih =>
    rcases p with ⟨k1, v1⟩
    unfold setKey
    by_cases h : k1 = k
    · simp [h, List.lookup]
    · have h2 : (k == k1) = false := beq_eq_false_iff_ne.mpr fun he => h he.symm
      simp [h, List.lookup, h2, ih]

/-- Helper: on a nonempty, all-valid instance list, getNextInstance
round-robins: it selects the instance at the current cursor (a missing
entry reads as 0) and advances the cursor modulo the list length. -/
theorem getNextInstance_spec (validURL : String → Bool) (svc : Service)
    (lbn : LoadBalancer)
    (hv : ∀ s ∈ svc.instances, LoadBalancer.isValidInstance validURL s = true)
    (hne : svc.instances ≠ []) :
    LoadBalancer.getNextInstance validURL lbn svc =
      .ok (svc.instances.get? ((lbn.currentIndices.lookup svc.name).getD 0),
        ⟨setKey lbn.currentIndices svc.name
          (((lbn.currentIndices.lookup svc.name).getD 0 + 1) % svc.instances.length)⟩) := by
  have hfilter : svc.instances.filter (LoadBalancer.isValidInstance validURL) =
      svc.instances := List.filter_eq_self.mpr hv
  have hE : svc.instances.isEmpty = false := by
    cases h : svc.instances with
    | nil => exact absurd h hne
    | cons a l => rfl
  unfold LoadBalancer.getNextInstance LoadBalancer.roundRobin
  rw [hfilter]
  simp [hE]

/-- Helper: from a fresh cursor, after n round-robin steps the cursor reads
n modulo the instance count. -/
theorem rrState_fresh (validURL : String → Bool) (svc : Service) (lb : LoadBalancer)
    (hv : ∀ s ∈ svc.instances, LoadBalancer.isValidInstance validURL s = true)
    (hne : svc.instances ≠ [])
    (hfresh : lb.currentIndices.lookup svc.name = none) :
    ∀ n, ∃ lbn : LoadBalancer,
      LoadBalancer.rrState validURL svc lb n = .ok lbn ∧
      (lbn.currentIndices.lookup svc.name).getD 0 = n % svc.instances.length := by
  intro n
  induction n with
  | zero =>
    refine ⟨lb, rfl, ?_⟩
    rw [hfresh]
    simp
  | succ n ih =>
    obtain ⟨lbn, hok, hidx⟩ := ih
    refine ⟨⟨setKey lbn.currentIndices svc.name
      ((n % svc.instances.length + 1) % svc.instances.length)⟩, ?_, ?_⟩
    · show LoadBalancer.rrState validURL svc lb (n + 1) = _
      unfold LoadBalancer.rrState
      rw [hok, exceptBind_ok, getNextInstance_spec validURL svc lbn hv hne, exceptBind_ok]
      dsimp only
      rw [hidx]
      rfl
    · rw [lookup_setKey]
      simp only [Option.getD_some]
      exact Nat.mod_add_mod n svc.instances.length 1

/-- C7: for a fixed nonempty instance list of valid URLs and a fresh
per-service cursor, the first N = instances.length round-robin selections
(getNextInstance through the default roundRobin strategy) return the
instances in list order — position i at selection i, so each instance
exactly once — and selection N returns the first instance again. -/
theorem roundRobin_cycle (validURL : String → Bool) (svc : Service) (lb : LoadBalancer)
    (hv : ∀ s ∈ svc.instances, LoadBalancer.isValidInstance validURL s = true)
    (hne : svc.instances ≠ [])
    (hfresh : lb.currentIndices.lookup svc.name = none) :
    (∀ i, i < svc.instances.length →
      LoadBalancer.rrSelection validURL svc lb i = .ok (svc.instances.get? i)) ∧
    LoadBalancer.rrSelection validURL svc lb svc.instances.length =
      .ok (svc.instances.get? 0) := by
  have key : ∀ n, LoadBalancer.rrSelection validURL svc lb n =
      .ok (svc.instances.get? (n % svc.instances.length)) := by
    intro n
    obtain ⟨lbn, hok, hidx⟩ := rrState_fresh validURL svc lb hv hne hfresh n
    unfold LoadBalancer.rrSelection
    rw [hok, exceptBind_ok, getNextInstance_spec validURL svc lbn hv hne, exceptBind_ok]
    dsimp only
    rw [hidx]
    rfl
  refine ⟨fun i hi => ?_, ?_⟩
  · rw [key i, Nat.mod_eq_of_lt hi]
  · rw [key, Nat.mod_self]

/-- Witness for C7: on instances [a, b, c] the selections run a, b, c and
then a again. -/
theorem roundRobin_cycle_witness :
    LoadBalancer.rrSelection acceptAll rrDemoService LoadBalancer.init 0 =
      .ok (some "http://a") ∧
    LoadBalancer.rrSelection acceptAll rrDemoService LoadBalancer.init 1 =
      .ok (some "http://b") ∧
    LoadBalancer.rrSelection acceptAll rrDemoService LoadBalancer.init 2 =
      .ok (some "http://c") ∧
    LoadBalancer.rrSelection acceptAll rrDemoService LoadBalancer.init 3 =
      .ok (some "http://a") := by
  have h := roundRobin_cycle acceptAll rrDemoService LoadBalancer.init
    (by decide) (by decide) rfl
  exact ⟨h.1 0 (by decide), h.1 1 (by decide), h.1 2 (by decide), h.2⟩

/-- Helper: when the load balancer fails and the service has at least one
configured instance, the registry fallback returns the first instance. -/
theorem resolveViaBalancer_error_fallback (validURL : String → Bool)
    (reg : ServiceRegistry) (svc : Service) (n u : String)
    (hinst : svc.instances = [u])
    (err : LoadBalancer.LBError)
    (herr : LoadBalancer.getNextInstance validURL reg.loadBalancer svc = .error err) :
    ServiceRegistry.resolveViaBalancer validURL reg svc n = .ok (some u, reg) := by
  unfold ServiceRegistry.resolveViaBalancer
  rw [herr, hinst]

/-- Helper: with a nonempty instance list the fallback chain never reaches
the final no-instances error. -/
theorem resolveViaBalancer_ne_noInst (validURL : String → Bool)
    (reg : ServiceRegistry) (svc : Service) (n : String)
    (hne : svc.instances ≠ []) :
    ServiceRegistry.resolveViaBalancer validURL reg svc n ≠
      .error (ServiceRegistry.RegistryError.noInstancesAvailable n) := by
  unfold ServiceRegistry.resolveViaBalancer
  cases hg : LoadBalancer.getNextInstance validURL reg.loadBalancer svc with
  | ok p =>
    rcases p with ⟨i, lb⟩
    simp
  | error e =>
    cases hI : svc.instances with
    | nil => exact absurd hI hne
    | cons a l => simp

/-- Helper: registerService stores the service under its name in exactly
the shape the fallback relies on — instances is the singleton [config.url]. -/
theorem registerService_lookup (reg : ServiceRegistry) (name cfgUrl : String)
    (cfgTimeout : Option Nat) :
    (reg.registerService name cfgUrl cfgTimeout).services.lookup name =
      some { name := name, url := cfgUrl, instances := [cfgUrl],
             status := "unknown", failureCount := 0 } := by
  unfold ServiceRegistry.registerService
  exact lookup_setKey reg.services name _

/-- C8: for a service in the registered shape (instances = [url]),
getServiceInstance never surfaces the load balancer's
no-available-instances failure; whenever the breaker admits the request and
the load balancer fails (for example because no instance URL is
syntactically valid), the resolution returns the first configured URL. -/
theorem registry_fallback (validURL : String → Bool) (reg : ServiceRegistry)
    (name : String) (now : Nat) (svc : Service) (u : String)
    (hsvc : reg.services.lookup name = some svc)
    (hinst : svc.instances = [u]) :
    (ServiceRegistry.getServiceInstance validURL reg name now ≠
      .error (ServiceRegistry.RegistryError.noInstancesAvailable name)) ∧
    ((∀ cb, reg.breakers.lookup name = some cb → (cb.isRequestAllowed now).1 = true) →
      ∀ err, LoadBalancer.getNextInstance validURL reg.loadBalancer svc = .error err →
        ServiceRegistry.outcomeOf
            (ServiceRegistry.getServiceInstance validURL reg name now) =
          .ok (some u)) := by
  have hne : svc.instances ≠ [] := by rw [hinst]; simp
  unfold ServiceRegistry.getServiceInstance
  rw [hsvc]
  cases hcb : reg.breakers.lookup name with
  | none =>
    dsimp only
    refine ⟨resolveViaBalancer_ne_noInst validURL reg svc name hne, ?_⟩
    intro _ err herr
    rw [resolveViaBalancer_error_fallback validURL reg svc name u hinst err herr]
    rfl
  | some cb =>
    dsimp only
    rcases hP : cb.isRequestAllowed now with ⟨fl, cb2⟩
    dsimp only
    cases fl with
    | false =>
      refine ⟨by simp, ?_⟩
      intro hadm
      have htrue := hadm cb rfl
      rw [hP] at htrue
      simp at htrue
    | true =>
      refine ⟨resolveViaBalancer_ne_noInst validURL _ svc name hne, ?_⟩
      intro _ err herr
      show ServiceRegistry.outcomeOf
          (ServiceRegistry.resolveViaBalancer validURL
            { reg with breakers := setKey reg.breakers name cb2 } svc name) =
        Except.ok (some u)
      rw [resolveViaBalancer_error_fallback validURL
        { reg with breakers := setKey reg.breakers name cb2 } svc name u hinst err herr]
      rfl

/-- Witness for C8: with a URL oracle that rejects every string, the load
balancer fails with no-healthy-instances, and the registry still returns
the configured URL of the registered user service. -/
theorem registry_fallback_witness :
    ServiceRegistry.outcomeOf
        (ServiceRegistry.getServiceInstance rejectAll regHealthy "user" 0) =
      .ok (some "http://localhost:3001") := by
  have h := registry_fallback rejectAll regHealthy "user" 0 userService
    "http://localhost:3001" rfl rfl
  apply h.2
  · intro cb hcb
    have h3 : cb = CircuitBreaker.init defaultOptions := by
      have h4 := hcb.symm.trans
        (rfl : regHealthy.breakers.lookup "user" = some (CircuitBreaker.init defaultOptions))
      exact Option.some.inj h4
    rw [h3]
    decide
  · rfl

/-- Helper: the load balancer never reads the status field of a service. -/
theorem getNextInstance_status (validURL : String → Bool) (lb : LoadBalancer)
    (svc : Service) (st : String) :
    LoadBalancer.getNextInstance validURL lb { svc with status := st } =
      LoadBalancer.getNextInstance validURL lb svc := rfl

/-- Helper: the fallback chain never reads the status field of a service. -/
theorem resolveViaBalancer_status (validURL : String → Bool) (reg : ServiceRegistry)
    (svc : Service) (st n : String) :
    ServiceRegistry.resolveViaBalancer validURL reg { svc with status := st } n =
      ServiceRegistry.resolveViaBalancer validURL reg svc n := rfl

/-- Helper: the caller-visible outcome of the fallback chain depends on the
registry only through its load balancer state. -/
theorem outcomeOf_resolveViaBalancer (validURL : String → Bool)
    (rA rB : ServiceRegistry) (svc : Service) (n : String)
    (h : rA.loadBalancer = rB.loadBalancer) :
    ServiceRegistry.outcomeOf (ServiceRegistry.resolveViaBalancer validURL rA svc n) =
      ServiceRegistry.outcomeOf (ServiceRegistry.resolveViaBalancer validURL rB svc n) := by
  unfold ServiceRegistry.resolveViaBalancer
  rw [h]
  cases hg : LoadBalancer.getNextInstance validURL rB.loadBalancer svc with
  | ok p =>
    rcases p with ⟨i, lb⟩
    rfl
  | error e =>
    cases hI : svc.instances with
    | nil =>
      by_cases hu : svc.url ≠ ""
      · rw [if_pos hu, if_pos hu]
        rfl
      · rw [if_neg hu, if_neg hu]
    | cons a l => rfl

/-- C9: the outcome of getServiceInstance — the returned URL or the thrown
failure kind — does not depend on the status field of the service: two
registries whose stored service differs only in status (breakers and load
balancer state equal) resolve identically; only the circuit breaker gates
admission. -/
theorem status_noninterference (validURL : String → Bool)
    (reg1 reg2 : ServiceRegistry) (name : String) (now : Nat)
    (svc : Service) (st : String)
    (h1 : reg1.services.lookup name = some svc)
    (h2 : reg2.services.lookup name = some { svc with status := st })
    (hb : reg2.breakers = reg1.breakers)
    (hlb : reg2.loadBalancer = reg1.loadBalancer) :
    ServiceRegistry.outcomeOf (ServiceRegistry.getServiceInstance validURL reg2 name now) =
      ServiceRegistry.outcomeOf (ServiceRegistry.getServiceInstance validURL reg1 name now) := by
  unfold ServiceRegistry.getServiceInstance
  rw [h1, h2, hb]
  cases hcb : reg1.breakers.lookup name with
  | none =>
    dsimp only
    rw [resolveViaBalancer_status]
    exact outcomeOf_resolveViaBalancer validURL reg2 reg1 svc name hlb
  | some cb =>
    dsimp only
    rcases hP : cb.isRequestAllowed now with ⟨fl, cb2⟩
    dsimp only
    cases fl with
    | false => rfl
    | true =>
      show ServiceRegistry.outcomeOf
          (ServiceRegistry.resolveViaBalancer validURL
            { reg2 with breakers := setKey reg1.breakers name cb2 }
            { svc with status := st } name) =
        ServiceRegistry.outcomeOf
          (ServiceRegistry.resolveViaBalancer validURL
            { reg1 with breakers := setKey reg1.breakers name cb2 } svc name)
      rw [resolveViaBalancer_status]
      exact outcomeOf_resolveViaBalancer validURL _ _ svc name hlb

/-- Witness for C9: the healthy and unhealthy variants of the demo registry
resolve the user service to the same outcome. -/
theorem status_noninterference_witness :
    ServiceRegistry.outcomeOf
        (ServiceRegistry.getServiceInstance acceptAll regUnhealthy "user" 0) =
      ServiceRegistry.outcomeOf
        (ServiceRegistry.getServiceInstance acceptAll regHealthy "user" 0) :=
  status_noninterference acceptAll regHealthy regUnhealthy "user" 0 userService
    "unhealthy" rfl rfl rfl rfl

end APIGateway
